import Mathlib

/-!
Verification of the KnowFlow backend core (process-graph engine, risk
analyzer, SOP generator, conversation entity merge) against its
natural-language specification.

Shallow embedding conventions:
* Python `UUID` values are modelled as `Nat` (only equality and use as
  dictionary keys matter to the code under verification).
* Python `float` scores are modelled as `ℚ` (`Rat`); the code only ever
  compares, sums and divides scores.
* Python `dict` (insertion-ordered) is modelled as an association list
  (`AList` below) whose update keeps the position of an existing key and
  appends new keys, exactly like CPython dicts.
* NetworkX stores one mutable attribute dictionary per node and per edge.
  Python code that keeps a reference to such a dictionary (the snapshot
  lists built by `create_snapshot`) observes later in-place updates.  To
  model this aliasing, attribute dictionaries live in explicit heaps
  (`nheap`, `eheap`) addressed by allocation number (`nextRef`), and the
  graph/adjacency/snapshot structures store references into those heaps.
* Fields the embedded code never reads or writes (pydantic `id` fields
  initialised from `uuid4()`, `datetime` timestamps, `metadata` bags,
  layout positions) are omitted; where `uuid4()` is used as a fallback
  *value* (a fresh nondeterministic UUID) it is modelled by `0`.
* Unbounded Python recursion (DFS/BFS loops) is modelled with an explicit
  fuel parameter instantiated with a bound that dominates the recursion
  depth / iteration count of the Python original, so the fuel never runs
  out on the modelled executions.
-/

namespace KnowFlow

/-! ## Python dictionaries as insertion-ordered association lists -/

/-- Insertion-ordered association list, the model of a CPython `dict`. -/
abbrev AList (α β : Type) : Type := List (α × β)

/-- `d.get(k)` / `d[k]`: first binding of `k`. -/
def alGet {α β : Type} [DecidableEq α] : AList α β → α → Option β
  | [], _ => none
  | (k', v) :: t, k => if k' = k then some v else alGet t k

/-- `d[k] = v`: update in place when the key exists (keeping its position),
append otherwise — CPython dict assignment. -/
def alSet {α β : Type} [DecidableEq α] : AList α β → α → β → AList α β
  | [], k, v => [(k, v)]
  | (k', v') :: t, k, v => if k' = k then (k', v) :: t else (k', v') :: alSet t k v

/-- `k in d`. -/
def alContains {α β : Type} [DecidableEq α] (l : AList α β) (k : α) : Bool :=
  (alGet l k).isSome

/-- `defaultdict(list)`: `d[k].append(x)`. -/
def alPush {α β : Type} [DecidableEq α] : AList α (List β) → α → β → AList α (List β)
  | [], k, x => [(k, [x])]
  | (k', v) :: t, k, x =>
    if k' = k then (k', v ++ [x]) :: t else (k', v) :: alPush t k x

/-- `defaultdict(int)`: `d[k] += 1`. -/
def alInc {α : Type} [DecidableEq α] : AList α Nat → α → AList α Nat
  | [], k => [(k, 1)]
  | (k', v) :: t, k => if k' = k then (k', v + 1) :: t else (k', v) :: alInc t k

/-- Python `set.add` for a set whose iteration order we model as insertion
order (the code only converts these sets to lists whose order is
unspecified). -/
def setAdd {α : Type} [DecidableEq α] (l : List α) (x : α) : List α :=
  if x ∈ l then l else l ++ [x]

/-- Python `list.index` (the code only calls it on elements known to be
present; the default 0-padding for the absent case is never reached). -/
def pyIndex {α : Type} [DecidableEq α] : List α → α → Nat
  | [], _ => 0
  | a :: t, x => if a = x then 0 else pyIndex t x + 1

/-- Python `sep.join(parts)`. -/
def strJoin (sep : String) : List String → String
  | [] => ""
  | [x] => x
  | x :: rest => x ++ sep ++ strJoin sep rest

/-- Truthiness of a Python `Optional[str]`: `None` and `""` are falsy. -/
def optStrTruthy : Option String → Bool
  | none => false
  | some s => if s = "" then false else true

/-- Python `x or y` on `Optional[str]` values. -/
def pyOr (x y : Option String) : Option String :=
  if optStrTruthy x then x else y

/-- ASCII lower-casing of one character (Python `str.lower` restricted to
ASCII, which covers every name the embedded code compares). -/
def pyLowerChar (c : Char) : Char :=
  if 65 ≤ c.toNat ∧ c.toNat ≤ 90 then Char.ofNat (c.toNat + 32) else c

/-- Python `str.lower` (ASCII). -/
def pyLower (s : String) : String := ⟨s.data.map pyLowerChar⟩

/-- Python `str.strip` whitespace set (space, tab, newline, carriage
return, vertical tab, form feed). -/
def pyWhitespace (c : Char) : Bool :=
  decide (c = ' ' ∨ c = Char.ofNat 9 ∨ c = Char.ofNat 10 ∨ c = Char.ofNat 13 ∨
    c = Char.ofNat 11 ∨ c = Char.ofNat 12)

/-- Python `str.strip`: drop whitespace from both ends. -/
def pyStrip (s : String) : String :=
  ⟨((s.data.dropWhile pyWhitespace).reverse.dropWhile pyWhitespace).reverse⟩

/-- Python float division `a / n` by a list/element count, in a form the
kernel can evaluate (`divNat_eq_div` below identifies it with `a / n` on
`ℚ`; for `n = 0` both sides are `0`, a case the guarded call sites never
reach). -/
def divNat (a : ℚ) (n : Nat) : ℚ := mkRat a.num (a.den * n)

/-! ## Model enumerations (`app/models/schemas.py`) -/

/-- `EntityType` (schemas.py). -/
inductive EntityType
  | task | role | trigger | decision | artifact | system | rule
deriving DecidableEq

/-- `RelationType` (schemas.py). -/
inductive RelationType
  | depends_on | triggers | owned_by | produces | consumes | decides
  | escalates_to | validates
deriving DecidableEq

/-- `ConfidenceLevel` (schemas.py). -/
inductive ConfidenceLevel
  | high | medium | low | unverified
deriving DecidableEq

/-- `RiskSeverity` (schemas.py). -/
inductive RiskSeverity
  | critical | high | medium | low
deriving DecidableEq

/-- `RiskCategory` (schemas.py). -/
inductive RiskCategory
  | single_point_of_failure | undocumented_decision | orphaned_task
  | brittle_chain | missing_exception_handler | circular_dependency
  | bottleneck
deriving DecidableEq

/-- The open `attributes: Dict[str, Any]` bag of a `KnowledgeEntity`,
restricted to the keys the code base actually reads
(owner, responsible, conditions, is_exception, duration_estimate,
prerequisites, tools). -/
structure EntityAttrs where
  owner : Option String
  responsible : Option String
  conditions : List String
  is_exception : Bool
  duration_estimate : Option String
  prerequisites : Option String
  tools : Option String
deriving DecidableEq

/-- `KnowledgeEntity` (schemas.py); provenance/verification fields that the
embedded code never reads are omitted. -/
structure KnowledgeEntity where
  id : Nat
  process_id : Nat
  entity_type : EntityType
  name : String
  description : Option String
  confidence : ConfidenceLevel
  confidence_score : ℚ
  attributes : EntityAttrs
deriving DecidableEq

/-- `GraphEdge` (schemas.py); `source_response_ids` and `metadata`, never
read by the embedded code, are omitted. -/
structure GraphEdge where
  id : Nat
  graph_version : Nat
  source_node_id : Nat
  target_node_id : Nat
  relation_type : RelationType
  label : Option String
  weight : ℚ
  confidence : ConfidenceLevel
  conditions : List String
deriving DecidableEq

/-- `GraphNode` (schemas.py); layout fields omitted. -/
structure GraphNode where
  id : Nat
  entity_id : Nat
  graph_version : Nat
  in_degree : Nat
  out_degree : Nat
deriving DecidableEq

/-- `GraphVersion` (schemas.py); `id`, `created_at`, `created_by`
(uuid4/datetime defaults never read) are omitted. -/
structure GraphVersion where
  process_id : Nat
  version_number : Nat
  node_count : Nat
  edge_count : Nat
  change_summary : String
deriving DecidableEq

/-- `GraphDiff` (schemas.py); the `nodes_modified`/`edges_modified` lists
(never mentioned by any claim and never populated by any code) are
omitted. -/
structure GraphDiff where
  from_version : Nat
  to_version : Nat
  nodes_added : List KnowledgeEntity
  nodes_removed : List KnowledgeEntity
  edges_added : List GraphEdge
  edges_removed : List GraphEdge
  summary : String
deriving DecidableEq

/-- `RiskFinding` (schemas.py); the `id` field (a fresh `uuid4()`) and the
`acknowledged` flag are omitted. -/
structure RiskFinding where
  process_id : Nat
  category : RiskCategory
  severity : RiskSeverity
  title : String
  description : String
  explanation : String
  affected_node_ids : List Nat
  affected_edge_ids : List Nat
  recommendation : String
  effort_estimate : Option String
deriving DecidableEq

/-- `SOPStep` (schemas.py). -/
structure SOPStep where
  step_number : Nat
  title : String
  description : String
  responsible_role : Option String
  source_node_ids : List Nat
  is_decision_point : Bool
  is_exception_handler : Bool
  branches : Option (AList String Nat)
  notes : List String
deriving DecidableEq

/-- The `generation_params` dictionary recorded in an `SOPVersion`. -/
structure GenerationParams where
  include_exceptions : Bool
  include_systems : Bool
  detail_level : String
deriving DecidableEq

/-- `SOPVersion` (schemas.py); `id` and `generated_at` (uuid4/datetime)
are omitted. -/
structure SOPVersion where
  process_id : Nat
  version_number : Nat
  title : String
  purpose : String
  scope : String
  steps : List SOPStep
  roles_involved : List String
  systems_referenced : List String
  artifacts_produced : List String
  coverage_score : ℚ
  confidence_score : ℚ
  source_graph_version : Nat
  generation_params : GenerationParams
deriving DecidableEq

/-! ## Process graph engine (`app/graph/engine.py`)

The NetworkX `DiGraph` is modelled by:
* `nodes`: the node dictionary, mapping node id to the heap reference of
  its attribute dictionary, in insertion order;
* `adj`: the successor structure, mapping each node id to its
  insertion-ordered successor dictionary (target id, heap reference of the
  edge attribute dictionary);
* `nheap` / `eheap`: the heaps of node / edge attribute dictionaries.
  `nextRef` is the allocation counter.  In-place dictionary updates
  (NetworkX `add_node` / `add_edge` on an existing node/edge) update the
  heap cell, so every structure holding that reference — in particular a
  stored snapshot — observes the change, exactly as in Python. -/

/-- Contents of a NetworkX node attribute dictionary as written by
`ProcessGraph.add_entity` (the `entity_type` string is modelled by the
enumeration itself). -/
structure NodeAttrs where
  entity_type : EntityType
  name : String
  confidence : ℚ
deriving DecidableEq

/-- Contents of a NetworkX edge attribute dictionary as written by
`ProcessGraph.add_edge`. -/
structure EdgeAttrs where
  edge_id : Nat
  relation_type : RelationType
  label : Option String
  conditions : List String
deriving DecidableEq

/-- A stored snapshot: `list(graph.nodes(data=True))` and
`list(graph.edges(data=True))` keep references to the live attribute
dictionaries (modelled by heap references), while the entity table is
value-copied via `model_dump()`. -/
structure Snapshot where
  nodesSnap : List (Nat × Nat)
  edgesSnap : List (Nat × Nat × Nat)
  entitiesSnap : AList Nat KnowledgeEntity
deriving DecidableEq

/-- `ProcessGraph` state (engine.py). -/
structure PGraph where
  process_id : Nat
  current_version : Nat
  nextRef : Nat
  nheap : AList Nat NodeAttrs
  eheap : AList Nat EdgeAttrs
  nodes : AList Nat Nat
  adj : AList Nat (AList Nat Nat)
  entities : AList Nat KnowledgeEntity
  versions : AList Nat GraphVersion
  snapshots : AList Nat Snapshot
deriving DecidableEq

namespace ProcessGraph

/-- `ProcessGraph.__init__`. -/
def init (process_id : Nat) : PGraph :=
  { process_id := process_id, current_version := 0, nextRef := 0,
    nheap := [], eheap := [], nodes := [], adj := [], entities := [],
    versions := [], snapshots := [] }

/-- `graph.has_node`. -/
def hasNode (g : PGraph) (n : Nat) : Bool := alContains g.nodes n

/-- `ProcessGraph.add_entity`.  NetworkX `add_node` updates the attribute
dictionary of an existing node in place (same heap cell) and allocates a
fresh dictionary plus an empty adjacency entry for a new node. -/
def add_entity (g : PGraph) (entity : KnowledgeEntity) : PGraph × GraphNode :=
  let entities' := alSet g.entities entity.id entity
  let attrs : NodeAttrs :=
    { entity_type := entity.entity_type, name := entity.name,
      confidence := entity.confidence_score }
  let g' :=
    match alGet g.nodes entity.id with
    | some r =>
      { g with entities := entities', nheap := alSet g.nheap r attrs }
    | none =>
      { g with entities := entities',
               nheap := alSet g.nheap g.nextRef attrs,
               nodes := g.nodes ++ [(entity.id, g.nextRef)],
               adj := g.adj ++ [(entity.id, [])],
               nextRef := g.nextRef + 1 }
  (g', { id := 0, entity_id := entity.id, graph_version := g.current_version,
         in_degree := 0, out_degree := 0 })

/-- `ProcessGraph.add_edge`.  Returns `false` without touching the graph
when either endpoint is missing; otherwise NetworkX `add_edge` updates the
attribute dictionary of an existing `(source, target)` edge in place, and
allocates a fresh one for a new edge. -/
def add_edge (g : PGraph) (edge : GraphEdge) : PGraph × Bool :=
  if hasNode g edge.source_node_id = false ∨ hasNode g edge.target_node_id = false then
    (g, false)
  else
    let attrs : EdgeAttrs :=
      { edge_id := edge.id, relation_type := edge.relation_type,
        label := edge.label, conditions := edge.conditions }
    let g' :=
      match alGet g.adj edge.source_node_id with
      | some succ =>
        match alGet succ edge.target_node_id with
        | some r => { g with eheap := alSet g.eheap r attrs }
        | none =>
          { g with eheap := alSet g.eheap g.nextRef attrs,
                   adj := alSet g.adj edge.source_node_id
                            (succ ++ [(edge.target_node_id, g.nextRef)]),
                   nextRef := g.nextRef + 1 }
      | none =>
        { g with eheap := alSet g.eheap g.nextRef attrs,
                 adj := alSet g.adj edge.source_node_id
                          [(edge.target_node_id, g.nextRef)],
                 nextRef := g.nextRef + 1 }
    (g', true)

/-- `ProcessGraph.remove_entity`: remove the node, all incident edges, and
the entity record.  Heap cells are not reclaimed (references stored in
snapshots stay valid, as in Python). -/
def remove_entity (g : PGraph) (entity_id : Nat) : PGraph × Bool :=
  if hasNode g entity_id = false then (g, false)
  else
    ({ g with
        nodes := g.nodes.filter (fun p => p.1 ≠ entity_id),
        adj := (g.adj.filter (fun p => p.1 ≠ entity_id)).map
          (fun p => (p.1, p.2.filter (fun q => q.1 ≠ entity_id))),
        entities := g.entities.filter (fun p => p.1 ≠ entity_id) },
     true)

/-- `graph.edges(data=True)` iteration order: sources in node insertion
order, then targets in per-source insertion order; yields the heap
reference of each edge attribute dictionary. -/
def edgeTriples (g : PGraph) : List (Nat × Nat × Nat) :=
  g.adj.flatMap (fun p => p.2.map (fun q => (p.1, q.1, q.2)))

/-- `graph.number_of_nodes()`. -/
def number_of_nodes (g : PGraph) : Nat := g.nodes.length

/-- `graph.number_of_edges()`. -/
def number_of_edges (g : PGraph) : Nat := (edgeTriples g).length

/-- `graph.in_degree(n)`. -/
def in_degree (g : PGraph) (n : Nat) : Nat :=
  ((edgeTriples g).filter (fun t => t.2.1 = n)).length

/-- `ProcessGraph.get_roots`. -/
def get_roots (g : PGraph) : List Nat :=
  (g.nodes.map Prod.fst).filter (fun n => in_degree g n = 0)

/-- `ProcessGraph.get_entity`. -/
def get_entity (g : PGraph) (entity_id : Nat) : Option KnowledgeEntity :=
  alGet g.entities entity_id

/-- `ProcessGraph.get_all_edges`: rebuild `GraphEdge` records from the live
edge attribute dictionaries (with the `.get` defaults of the source:
a fresh uuid — modelled `0` — for a missing `edge_id`, `depends_on`,
`None`, `[]`). -/
def get_all_edges (g : PGraph) : List GraphEdge :=
  (edgeTriples g).map (fun t =>
    let d : EdgeAttrs :=
      (alGet g.eheap t.2.2).getD
        { edge_id := 0, relation_type := RelationType.depends_on,
          label := none, conditions := [] }
    { id := d.edge_id, graph_version := g.current_version,
      source_node_id := t.1, target_node_id := t.2.1,
      relation_type := d.relation_type, label := d.label,
      weight := 1, confidence := ConfidenceLevel.unverified,
      conditions := d.conditions })

/-- `ProcessGraph.create_snapshot`. -/
def create_snapshot (g : PGraph) (change_summary : String) : PGraph × GraphVersion :=
  let cv := g.current_version + 1
  let snap : Snapshot :=
    { nodesSnap := g.nodes, edgesSnap := edgeTriples g,
      entitiesSnap := g.entities }
  let version : GraphVersion :=
    { process_id := g.process_id, version_number := cv,
      node_count := number_of_nodes g, edge_count := number_of_edges g,
      change_summary := change_summary }
  ({ g with current_version := cv,
            snapshots := alSet g.snapshots cv snap,
            versions := alSet g.versions cv version },
   version)

/-- Node-id set of a stored snapshot (`{n[0] for n in snap['nodes']}`). -/
def snapNodeIds (s : Snapshot) : Finset Nat :=
  (s.nodesSnap.map Prod.fst).toFinset

/-- `(source, target)` key set of a stored snapshot
(`{(e[0], e[1]) for e in snap['edges']}`). -/
def snapEdgeKeys (s : Snapshot) : Finset (Nat × Nat) :=
  (s.edgesSnap.map (fun t => (t.1, t.2.1))).toFinset

/-- `ProcessGraph.compute_diff`. -/
def compute_diff (g : PGraph) (from_version to_version : Nat) : GraphDiff :=
  match alGet g.snapshots from_version, alGet g.snapshots to_version with
  | some old_snap, some new_snap =>
    let nodes_added_ids := snapNodeIds new_snap \ snapNodeIds old_snap
    let nodes_removed_ids := snapNodeIds old_snap \ snapNodeIds new_snap
    let edges_added_ids := snapEdgeKeys new_snap \ snapEdgeKeys old_snap
    let edges_removed_ids := snapEdgeKeys old_snap \ snapEdgeKeys new_snap
    { from_version := from_version, to_version := to_version,
      nodes_added := [], nodes_removed := [],
      edges_added := [], edges_removed := [],
      summary := "+" ++ toString nodes_added_ids.card ++ " nodes, -" ++
        toString nodes_removed_ids.card ++ " nodes, +" ++
        toString edges_added_ids.card ++ " edges, -" ++
        toString edges_removed_ids.card ++ " edges" }
  | _, _ =>
    { from_version := from_version, to_version := to_version,
      nodes_added := [], nodes_removed := [],
      edges_added := [], edges_removed := [],
      summary := "Invalid versions" }

/-- Read a node payload of a stored snapshot: the stored pair holds a
reference into the graph's live heap of attribute dictionaries, so the
read dereferences the current heap (Python reference semantics). -/
def snapshotNodeAttrs (g : PGraph) (version node : Nat) : Option NodeAttrs :=
  (alGet g.snapshots version).bind (fun s =>
    (alGet s.nodesSnap node).bind (fun r => alGet g.nheap r))

/-- Name field of a stored snapshot node payload. -/
def snapshotNodeName (g : PGraph) (version node : Nat) : Option String :=
  (snapshotNodeAttrs g version node).map (fun a => a.name)

end ProcessGraph

/-! ## Conversation entity merge (`app/services/conversation.py`)

Only the two fields of `SessionState` that `add_entity` touches are
modelled (questions, responses and tracking fields are untouched by it). -/

/-- The entity store of a `SessionState`. -/
structure SessionState where
  entities : AList Nat KnowledgeEntity
  entity_index : AList String Nat
deriving DecidableEq

namespace SessionState

/-- `SessionState.add_entity`: deduplicate by the lower-cased, trimmed
name; on a hit, overwrite (reusing the existing id) only when the incoming
confidence score is strictly greater, and return the stored entity;
otherwise insert fresh.  The `entities[existing_id]` access cannot fail in
Python for states built by this method; the unreachable miss is modelled
as a no-op. -/
def add_entity (st : SessionState) (entity : KnowledgeEntity) :
    SessionState × KnowledgeEntity :=
  let key := pyStrip (pyLower entity.name)
  match alGet st.entity_index key with
  | some existing_id =>
    match alGet st.entities existing_id with
    | some existing =>
      if existing.confidence_score < entity.confidence_score then
        let entity' := { entity with id := existing_id }
        ({ st with entities := alSet st.entities existing_id entity' }, entity')
      else
        (st, existing)
    | none => (st, entity)
  | none =>
    ({ st with entity_index := alSet st.entity_index key entity.id,
               entities := alSet st.entities entity.id entity },
     entity)

end SessionState

/-! ## Risk analyzer (`app/services/risk.py`) -/

/-- `list(entities.values())[0].process_id if entities else uuid4()` —
the fresh-uuid fallback for an empty entity table is modelled as `0`. -/
def firstProcessId (entities : AList Nat KnowledgeEntity) : Nat :=
  match entities with
  | [] => 0
  | (_, e) :: _ => e.process_id

/-- `GraphAnalyzer.build_adjacency`: adjacency list from the edge list
(the `nodes` parameter is unused by the source as well). -/
def build_adjacency (nodes : List GraphNode) (edges : List GraphEdge) :
    AList Nat (List Nat) :=
  edges.foldl (fun adj e => alPush adj e.source_node_id e.target_node_id) []

/-- State threaded through the cycle-finding DFS of
`GraphAnalyzer.find_cycles`: recorded cycles, the visited set, the
recursion-stack set and the current path (the sets are modelled as lists
queried only for membership). -/
structure CycState where
  cycles : List (List Nat)
  visited : List Nat
  recStack : List Nat
  path : List Nat
deriving DecidableEq

/-- The `for neighbor in adj.get(node, [])` loop body of the DFS in
`find_cycles`, with its early returns: an unvisited neighbor is explored
recursively (propagating a `True` result), a neighbor on the recursion
stack records a cycle and returns `False` from the whole call. -/
def cycLoop (dfsF : Nat → CycState → CycState × Bool) :
    List Nat → CycState → CycState × Option Bool
  | [], st => (st, none)
  | nb :: rest, st =>
    if nb ∈ st.visited then
      if nb ∈ st.recStack then
        ({ st with cycles := st.cycles ++ [st.path.drop (pyIndex st.path nb)] },
         some false)
      else cycLoop dfsF rest st
    else
      match dfsF nb st with
      | (st', true) => (st', some true)
      | (st', false) => cycLoop dfsF rest st'

/-- The recursive `dfs` of `GraphAnalyzer.find_cycles`.  The fuel bounds
the recursion depth; the path holds pairwise-distinct nodes, so a fuel
exceeding the number of adjacency keys plus one is never exhausted.
Note the early `return False` after recording a cycle skips the
`path.pop()` / `rec_stack.remove(node)` cleanup, exactly as in the
source. -/
def cycDfs (adj : AList Nat (List Nat)) : Nat → Nat → CycState → CycState × Bool
  | 0, _, st => (st, false)
  | fuel + 1, node, st =>
    let st1 : CycState :=
      { st with visited := node :: st.visited,
                recStack := node :: st.recStack,
                path := st.path ++ [node] }
    match cycLoop (cycDfs adj fuel) ((alGet adj node).getD []) st1 with
    | (st2, some b) => (st2, b)
    | (st2, none) =>
      ({ st2 with path := st2.path.dropLast,
                  recStack := st2.recStack.erase node }, false)

/-- `GraphAnalyzer.find_cycles`. -/
def find_cycles (adj : AList Nat (List Nat)) : List (List Nat) :=
  let fuel := adj.length + 2
  let rec loop : List Nat → CycState → CycState
    | [], st => st
    | n :: rest, st =>
      if n ∈ st.visited then loop rest st
      else loop rest (cycDfs adj fuel n st).1
  (loop (adj.map Prod.fst) { cycles := [], visited := [], recStack := [], path := [] }).cycles

/-- The memoized `dfs` of `GraphAnalyzer.compute_longest_path`.  The memo
dictionary is shared across calls (threaded through), the visited set is
path-local; the fuel bounds the recursion depth (each level adds a fresh
node to the visited set, so the number of distinct mentioned nodes plus
two is never exhausted). -/
def clpDfs (adj : AList Nat (List Nat)) :
    Nat → Nat → List Nat → AList Nat Nat → Nat × AList Nat Nat
  | 0, _, _, memo => (0, memo)
  | fuel + 1, node, visited, memo =>
    if node ∈ visited then (0, memo)
    else
      match alGet memo node with
      | some v => (v, memo)
      | none =>
        let r := ((alGet adj node).getD []).foldl
          (fun (p : Nat × AList Nat Nat) nb =>
            let q := clpDfs adj fuel nb (node :: visited) p.2
            (max p.1 (1 + q.1), q.2))
          (0, memo)
        (r.1, alSet r.2 node r.1)

/-- `GraphAnalyzer.compute_longest_path`. -/
def compute_longest_path (start_nodes : List Nat) (adj : AList Nat (List Nat)) : Nat :=
  if start_nodes = [] then 0
  else
    let fuel := adj.length + (adj.foldl (fun s p => s + p.2.length) 0) + 2
    (start_nodes.foldl
      (fun (p : Nat × AList Nat Nat) s =>
        let q := clpDfs adj fuel s [] p.2
        (max p.1 q.1, q.2))
      (0, [])).1

/-- `SinglePointOfFailureRule.detect`. -/
def spofDetect (entities : AList Nat KnowledgeEntity) (nodes : List GraphNode)
    (edges : List GraphEdge) : List RiskFinding :=
  let m0 : AList String (List String) := edges.foldl
    (fun m e =>
      if e.relation_type = RelationType.owned_by then
        match alGet entities e.source_node_id, alGet entities e.target_node_id with
        | some task_entity, some role_entity => alPush m role_entity.name task_entity.name
        | _, _ => m
      else m) []
  let role_to_tasks : AList String (List String) := entities.foldl
    (fun m p =>
      if p.2.entity_type = EntityType.task then
        let owner := pyOr p.2.attributes.owner p.2.attributes.responsible
        if optStrTruthy owner then alPush m (owner.getD "") p.2.name else m
      else m) m0
  role_to_tasks.filterMap (fun p =>
    if 3 ≤ p.2.length then
      some { process_id := firstProcessId entities,
             category := RiskCategory.single_point_of_failure,
             severity := RiskSeverity.high,
             title := "Single Point of Failure: " ++ p.1,
             description := "'" ++ p.1 ++ "' is solely responsible for " ++
               toString p.2.length ++ " tasks: " ++ strJoin ", " (p.2.take 3) ++
               (if 3 < p.2.length then "..." else ""),
             explanation := "If " ++ p.1 ++
               " is unavailable (vacation, illness, leaves company), these " ++
               toString p.2.length ++
               " tasks cannot be performed. This creates operational risk and potential bottlenecks.",
             affected_node_ids := [], affected_edge_ids := [],
             recommendation := "Cross-train at least one other person on " ++ p.1 ++
               "'s responsibilities. Document procedures thoroughly.",
             effort_estimate := some "medium" }
    else none)

/-- `UndocumentedDecisionRule.detect`. -/
def undocDetect (entities : AList Nat KnowledgeEntity) (nodes : List GraphNode)
    (edges : List GraphEdge) : List RiskFinding :=
  entities.filterMap (fun p =>
    if p.2.entity_type = EntityType.decision then
      let conditions : List String := p.2.attributes.conditions
      let decision_edges : List GraphEdge := edges.filter (fun e =>
        decide (e.source_node_id = p.1 ∧ e.relation_type = RelationType.decides))
      let edges_with_conditions : List GraphEdge := decision_edges.filter (fun e =>
        decide (e.conditions ≠ [] ∨ optStrTruthy e.label = true))
      if conditions = [] ∧ edges_with_conditions.length < 2 then
        some { process_id := p.2.process_id,
               category := RiskCategory.undocumented_decision,
               severity := RiskSeverity.medium,
               title := "Undocumented Decision: " ++ p.2.name,
               description := "Decision point '" ++ p.2.name ++
                 "' lacks explicit conditions for branching.",
               explanation := "Without documented criteria, decision-making becomes subjective and inconsistent. Different people may make different choices given the same inputs, leading to unpredictable outcomes.",
               affected_node_ids := [p.1], affected_edge_ids := [],
               recommendation := "Define explicit, measurable conditions for each possible outcome (e.g., 'If amount > $10,000: require manager approval').",
               effort_estimate := some "low" }
      else none
    else none)

/-- `OrphanedTaskRule.detect`. -/
def orphanDetect (entities : AList Nat KnowledgeEntity) (nodes : List GraphNode)
    (edges : List GraphEdge) : List RiskFinding :=
  let owned_tasks := (edges.filter
    (fun e => decide (e.relation_type = RelationType.owned_by))).map
    (fun e => e.source_node_id)
  let triggered_tasks := (edges.filter
    (fun e => decide (e.relation_type = RelationType.triggers))).map
    (fun e => e.target_node_id)
  let dependent_tasks := (edges.filter
    (fun e => decide (e.relation_type = RelationType.depends_on))).map
    (fun e => e.target_node_id)
  entities.filterMap (fun p =>
    if p.2.entity_type = EntityType.task then
      let issues : List String :=
        (if p.1 ∈ owned_tasks ∨ optStrTruthy p.2.attributes.owner = true then []
         else ["no assigned owner"]) ++
        (if p.1 ∈ triggered_tasks ∨ p.1 ∈ dependent_tasks then []
         else ["no trigger or upstream dependency"])
      if issues = [] then none
      else
        some { process_id := p.2.process_id,
               category := RiskCategory.orphaned_task,
               severity := if issues.length = 2 then RiskSeverity.high
                           else RiskSeverity.medium,
               title := "Orphaned Task: " ++ p.2.name,
               description := "Task '" ++ p.2.name ++ "' has " ++
                 strJoin " and " issues ++ ".",
               explanation := "Tasks without clear ownership may never be completed. Tasks without triggers may never be initiated. This leads to process delays or complete failure.",
               affected_node_ids := [p.1], affected_edge_ids := [],
               recommendation := "Assign an owner to '" ++ p.2.name ++
                 "' and clarify what event or preceding task triggers it.",
               effort_estimate := some "low" }
    else none)

/-- `BrittleChainRule.detect` (the reverse adjacency computed by the source
is never used there and is not materialised). -/
def brittleDetect (entities : AList Nat KnowledgeEntity) (nodes : List GraphNode)
    (edges : List GraphEdge) : List RiskFinding :=
  let adj := build_adjacency nodes edges
  let all_targets : List Nat := edges.map (fun e => e.target_node_id)
  let all_sources : List Nat := edges.map (fun e => e.source_node_id)
  let start_nodes := (nodes.filter (fun n =>
    decide (n.id ∉ all_targets ∧ n.id ∈ all_sources))).map (fun n => n.id)
  if start_nodes = [] then []
  else
    let longest := compute_longest_path start_nodes adj
    if 5 ≤ longest then
      [{ process_id := firstProcessId entities,
         category := RiskCategory.brittle_chain,
         severity := RiskSeverity.medium,
         title := "Brittle Chain Detected (" ++ toString longest ++ " steps)",
         description := "The process has a dependency chain of " ++
           toString longest ++ " sequential steps.",
         explanation := "Long sequential chains are fragile: a failure at any point stops everything downstream. They also increase total cycle time and make parallel work impossible.",
         affected_node_ids := [], affected_edge_ids := [],
         recommendation := "Look for opportunities to parallelize independent tasks. Add checkpoints or fallback paths for critical steps.",
         effort_estimate := some "high" }]
    else []

/-- `CircularDependencyRule.detect`. -/
def circularDetect (entities : AList Nat KnowledgeEntity) (nodes : List GraphNode)
    (edges : List GraphEdge) : List RiskFinding :=
  let adj := build_adjacency nodes edges
  (find_cycles adj).filterMap (fun cycle =>
    let cycle_names := cycle.filterMap (fun node_id =>
      (alGet entities node_id).map (fun e => e.name))
    if cycle_names = [] then none
    else
      some { process_id := firstProcessId entities,
             category := RiskCategory.circular_dependency,
             severity := RiskSeverity.critical,
             title := "Circular Dependency Detected",
             description := "Cycle found: " ++ strJoin " → " cycle_names ++
               " → " ++ cycle_names.headD "",
             explanation := "Circular dependencies create deadlock: each task waits for another, so nothing can complete. This will cause the process to hang indefinitely.",
             affected_node_ids := cycle, affected_edge_ids := [],
             recommendation := "Break the cycle by removing one dependency or restructuring the process to eliminate the loop.",
             effort_estimate := some "medium" })

/-- `BottleneckRule.detect`. -/
def bottleneckDetect (entities : AList Nat KnowledgeEntity) (nodes : List GraphNode)
    (edges : List GraphEdge) : List RiskFinding :=
  let in_degree : AList Nat Nat :=
    edges.foldl (fun m e => alInc m e.target_node_id) []
  in_degree.filterMap (fun p =>
    if 4 ≤ p.2 then
      match alGet entities p.1 with
      | some entity =>
        some { process_id := entity.process_id,
               category := RiskCategory.bottleneck,
               severity := RiskSeverity.medium,
               title := "Bottleneck: " ++ entity.name,
               description := "'" ++ entity.name ++ "' has " ++ toString p.2 ++
                 " incoming dependencies.",
               explanation := "This task/checkpoint must wait for many other things to complete before it can proceed. Any delay in upstream tasks cascades here, and this node becomes a queue that slows the entire process.",
               affected_node_ids := [p.1], affected_edge_ids := [],
               recommendation := "Consider parallelizing this step or splitting it into sub-tasks that can complete independently.",
               effort_estimate := some "high" }
      | none => none
    else none)

/-- `LowConfidenceChainRule.detect`. -/
def lowConfDetect (entities : AList Nat KnowledgeEntity) (nodes : List GraphNode)
    (edges : List GraphEdge) : List RiskFinding :=
  let low_conf_count :=
    (entities.filter (fun p => decide (p.2.confidence_score < mkRat 1 2))).length
  let total := entities.length
  if 0 < total ∧ mkRat 3 10 < divNat (low_conf_count : ℚ) total then
    [{ process_id := firstProcessId entities,
       category := RiskCategory.brittle_chain,
       severity := RiskSeverity.medium,
       title := "High Uncertainty in Process Model",
       description := toString low_conf_count ++ " of " ++ toString total ++
         " elements have low confidence scores.",
       explanation := "Many parts of this process are not well-documented or confirmed. Decisions based on this model may be incorrect.",
       affected_node_ids := (entities.filter
         (fun p => decide (p.2.confidence_score < mkRat 1 2))).map (fun p => p.2.id),
       affected_edge_ids := [],
       recommendation := "Review and validate the low-confidence elements with domain experts before finalizing.",
       effort_estimate := some "medium" }]
  else []

/-- A detection rule of the orchestrator: its category attribute and its
`detect` method. -/
structure RiskRule where
  category : RiskCategory
  detect : AList Nat KnowledgeEntity → List GraphNode → List GraphEdge →
    List RiskFinding

/-- The fixed rule list of `RiskAnalyzer.__init__`, in order. -/
def riskRules : List RiskRule :=
  [ { category := RiskCategory.single_point_of_failure, detect := spofDetect },
    { category := RiskCategory.undocumented_decision, detect := undocDetect },
    { category := RiskCategory.orphaned_task, detect := orphanDetect },
    { category := RiskCategory.brittle_chain, detect := brittleDetect },
    { category := RiskCategory.circular_dependency, detect := circularDetect },
    { category := RiskCategory.bottleneck, detect := bottleneckDetect },
    { category := RiskCategory.brittle_chain, detect := lowConfDetect } ]

/-- Index of a severity in `severity_order = [LOW, MEDIUM, HIGH, CRITICAL]`. -/
def severityIdx : RiskSeverity → Nat
  | RiskSeverity.low => 0
  | RiskSeverity.medium => 1
  | RiskSeverity.high => 2
  | RiskSeverity.critical => 3

/-- The rule-skipping test `if categories and rule.category not in
categories` of `RiskAnalyzer.analyze`: `None` and the empty list are both
falsy in Python, so neither filters anything. -/
def pyCatSkip (categories : Option (List RiskCategory)) (c : RiskCategory) : Bool :=
  match categories with
  | none => false
  | some cs => if cs = [] then false else decide (c ∉ cs)

/-- `RiskAnalyzer.analyze`: run the kept rules in order, filter each
rule's findings by the minimum severity, concatenate (the rule/finding
double loop appending into `all_findings`), then sort stably by descending
severity (`list.sort(key, reverse=True)` is a stable sort, modelled by
`List.mergeSort`, which is also stable, under the matching total
preorder). -/
def analyze (entities : AList Nat KnowledgeEntity) (nodes : List GraphNode)
    (edges : List GraphEdge) (categories : Option (List RiskCategory))
    (min_severity : RiskSeverity) : List RiskFinding :=
  let min_idx := severityIdx min_severity
  let all_findings := (riskRules.filter
    (fun r => !pyCatSkip categories r.category)).flatMap
    (fun r => (r.detect entities nodes edges).filter
      (fun f => decide (min_idx ≤ severityIdx f.severity)))
  List.mergeSort all_findings
    (fun f1 f2 => decide (severityIdx f2.severity ≤ severityIdx f1.severity))

/-! ## SOP generator (`app/services/generation.py`) -/

open ProcessGraph

/-- The BFS of `StepOrderer.get_ordered_steps`: pop the front of the
queue, skip visited ids and ids without an entity record, otherwise emit
the entity with its entry branch label and enqueue the targets of its
outgoing edges (with the edge label as branch label when the current
entity is a decision).  The fuel bounds the number of loop iterations;
each iteration pops one queue element, and elements are enqueued only when
a previously unvisited entity is visited, so
`|queue| + (|entities| + 1) * (|edges| + 1)` iterations always suffice. -/
def bfsOrder (g : PGraph) :
    Nat → List (Nat × Option String) → List Nat →
    List (KnowledgeEntity × Option String) → List (KnowledgeEntity × Option String)
  | 0, _, _, acc => acc
  | _ + 1, [], _, acc => acc
  | fuel + 1, (current_id, branch) :: rest, visited, acc =>
    if current_id ∈ visited then bfsOrder g fuel rest visited acc
    else
      match alGet g.entities current_id with
      | none => bfsOrder g fuel rest visited acc
      | some entity =>
        let outgoing := (get_all_edges g).filter
          (fun e => decide (e.source_node_id = current_id))
        let enqueued := outgoing.map (fun e =>
          (e.target_node_id,
           if entity.entity_type = EntityType.decision then e.label else none))
        bfsOrder g fuel (rest ++ enqueued) (current_id :: visited)
          (acc ++ [(entity, branch)])

/-- `StepOrderer.get_ordered_steps`. -/
def get_ordered_steps (g : PGraph) : List (KnowledgeEntity × Option String) :=
  let roots0 := get_roots g
  let roots :=
    if roots0 = [] then
      (g.entities.filter (fun p =>
        decide (p.2.entity_type = EntityType.task))).map (fun p => p.1)
    else roots0
  let queue := roots.map (fun r => (r, (none : Option String)))
  let fuel := queue.length + (g.entities.length + 1) * (number_of_edges g + 1)
  bfsOrder g fuel queue [] []

/-- `SOPGenerator._build_role_map`. -/
def build_role_map (g : PGraph) : AList Nat String :=
  let role_map := (get_all_edges g).foldl
    (fun m e =>
      if e.relation_type = RelationType.owned_by then
        match get_entity g e.target_node_id with
        | some owner => alSet m e.source_node_id owner.name
        | none => m
      else m) []
  g.entities.foldl
    (fun m p =>
      if alContains m p.1 then m
      else
        let owner := pyOr p.2.attributes.owner p.2.attributes.responsible
        if optStrTruthy owner then alSet m p.1 (owner.getD "") else m)
    role_map

/-- `SOPGenerator._build_description`. -/
def build_description (entity : KnowledgeEntity) (detail_level : String) : String :=
  let base :=
    if optStrTruthy entity.description then entity.description.getD ""
    else "Perform " ++ entity.name
  if detail_level = "brief" then
    if 100 < base.length then base.take 100 ++ "..." else base
  else if detail_level = "detailed" then
    let extras : List String :=
      (match entity.attributes.duration_estimate with
       | some d => if d = "" then [] else ["Expected duration: " ++ d]
       | none => []) ++
      (match entity.attributes.prerequisites with
       | some d => if d = "" then [] else ["Prerequisites: " ++ d]
       | none => []) ++
      (match entity.attributes.tools with
       | some d => if d = "" then [] else ["Tools needed: " ++ d]
       | none => [])
    if extras = [] then base else base ++ "\n\n" ++ strJoin "\n" extras
  else base

/-- `SOPGenerator._get_decision_branches`: label-keyed placeholder map of
the decision's outgoing labelled edges; `None` when empty. -/
def get_decision_branches (g : PGraph) (decision_id : Nat) :
    Option (AList String Nat) :=
  let branches := (get_all_edges g).foldl
    (fun m e =>
      if e.source_node_id = decision_id ∧ optStrTruthy e.label = true then
        alSet m (e.label.getD "") 0
      else m) []
  if branches = [] then none else some branches

/-- `SOPGenerator._generate_title`. -/
def generate_title (g : PGraph) : String :=
  match g.entities.find? (fun p =>
      decide (p.2.entity_type = EntityType.trigger)) with
  | some p => "Standard Operating Procedure: " ++ p.2.name
  | none =>
    match g.entities.find? (fun p =>
        decide (p.2.entity_type = EntityType.task)) with
    | some p => "Standard Operating Procedure: " ++ p.2.name
    | none => "Standard Operating Procedure"

/-- `SOPGenerator._generate_purpose`. -/
def generate_purpose (g : PGraph) : String :=
  let tasks := g.entities.filter (fun p =>
    decide (p.2.entity_type = EntityType.task))
  let artifacts := g.entities.filter (fun p =>
    decide (p.2.entity_type = EntityType.artifact))
  if artifacts ≠ [] then
    "This procedure documents the steps required to produce: " ++
      strJoin ", " ((artifacts.take 3).map (fun p => p.2.name))
  else if tasks ≠ [] then
    "This procedure documents the workflow for: " ++
      ((tasks.map (fun p => p.2.name)).headD "")
  else "This procedure documents the standard workflow for this process."

/-- `SOPGenerator._generate_scope`. -/
def generate_scope (g : PGraph) : String :=
  let roles := g.entities.filter (fun p =>
    decide (p.2.entity_type = EntityType.role))
  if roles ≠ [] then
    "This procedure applies to: " ++ strJoin ", " (roles.map (fun p => p.2.name))
  else "This procedure applies to all personnel involved in this process."

/-- The main loop of `SOPGenerator.generate` over the ordered entity list:
threads the step counter (incremented for every ordered entity, before the
exclusion checks) and the role/system/artifact accumulation sets, and
emits the `SOPStep` records of the entities that are not skipped. -/
def genLoop (g : PGraph) (role_map : AList Nat String)
    (include_exceptions include_systems : Bool) (detail_level : String) :
    List (KnowledgeEntity × Option String) → Nat →
    List String → List String → List String →
    List SOPStep × List String × List String × List String
  | [], _, roles, sys, arts => ([], roles, sys, arts)
  | (entity, branch_label) :: rest, step_number, roles, sys, arts =>
    let n := step_number + 1
    let responsible := alGet role_map entity.id
    let roles1 :=
      if optStrTruthy responsible then setAdd roles (responsible.getD "")
      else roles
    let is_exception := entity.attributes.is_exception
    if is_exception = true ∧ include_exceptions = false then
      genLoop g role_map include_exceptions include_systems detail_level
        rest n roles1 sys arts
    else
      let sys1 :=
        if entity.entity_type = EntityType.system then setAdd sys entity.name
        else sys
      if entity.entity_type = EntityType.system ∧ include_systems = false then
        genLoop g role_map include_exceptions include_systems detail_level
          rest n roles1 sys1 arts
      else
        let arts1 :=
          if entity.entity_type = EntityType.artifact then setAdd arts entity.name
          else arts
        let description := build_description entity detail_level
        let notes : List String :=
          (if entity.confidence = ConfidenceLevel.unverified then
            ["⚠️ This step was inferred and needs confirmation"]
           else if entity.confidence = ConfidenceLevel.low then
            ["⚡ Low confidence - verify with process owner"]
           else []) ++
          (if optStrTruthy branch_label then
            ["This step follows when: " ++ branch_label.getD ""]
           else [])
        let step : SOPStep :=
          { step_number := n, title := entity.name, description := description,
            responsible_role := responsible, source_node_ids := [entity.id],
            is_decision_point := decide (entity.entity_type = EntityType.decision),
            is_exception_handler := is_exception,
            branches :=
              if entity.entity_type = EntityType.decision then
                get_decision_branches g entity.id
              else none,
            notes := notes }
        let r := genLoop g role_map include_exceptions include_systems
          detail_level rest n roles1 sys1 arts1
        (step :: r.1, r.2)

/-- `SOPGenerator.generate`. -/
def generate (g : PGraph) (include_exceptions include_systems : Bool)
    (detail_level : String) : SOPVersion :=
  let ordered := get_ordered_steps g
  let role_map := build_role_map g
  let r := genLoop g role_map include_exceptions include_systems detail_level
    ordered 0 [] [] []
  let steps := r.1
  let total_entities := g.entities.length
  let covered_entities :=
    (steps.filter (fun s => decide (s.source_node_ids ≠ []))).length
  let coverage : ℚ :=
    if 0 < total_entities then divNat (covered_entities : ℚ) total_entities
    else 0
  let confidence_scores : List ℚ :=
    g.entities.map (fun p => p.2.confidence_score)
  let avg_confidence : ℚ :=
    if confidence_scores = [] then mkRat 1 2
    else divNat confidence_scores.sum confidence_scores.length
  { process_id := g.process_id, version_number := 1,
    title := generate_title g, purpose := generate_purpose g,
    scope := generate_scope g, steps := steps,
    roles_involved := r.2.1, systems_referenced := r.2.2.1,
    artifacts_produced := r.2.2.2,
    coverage_score := coverage, confidence_score := avg_confidence,
    source_graph_version := g.current_version,
    generation_params :=
      { include_exceptions := include_exceptions,
        include_systems := include_systems, detail_level := detail_level } }

/-! ## Mutation traces

A trace of the public mutation operations of a `ProcessGraph`, used to
state properties of `create_snapshot` under arbitrary interleaved
mutations.  `runOps` records, for every snapshot call, the returned
version record together with the graph's actual node and edge counts at
the moment of that call. -/

/-- A public mutation of a `ProcessGraph`. -/
inductive Op where
  | addEntity (e : KnowledgeEntity)
  | addEdge (e : GraphEdge)
  | removeEntity (i : Nat)
  | snapshot (summary : String)

/-- Apply one operation; a snapshot additionally reports its returned
version record and the graph's node/edge counts at call time. -/
def applyOp (g : PGraph) : Op → PGraph × Option (GraphVersion × Nat × Nat)
  | Op.addEntity e => ((ProcessGraph.add_entity g e).1, none)
  | Op.addEdge e => ((ProcessGraph.add_edge g e).1, none)
  | Op.removeEntity i => ((ProcessGraph.remove_entity g i).1, none)
  | Op.snapshot s =>
    ((ProcessGraph.create_snapshot g s).1,
     some ((ProcessGraph.create_snapshot g s).2,
       number_of_nodes g, number_of_edges g))

/-- Run a list of operations, collecting the snapshot records in order. -/
def runOps : PGraph → List Op → PGraph × List (GraphVersion × Nat × Nat)
  | g, [] => (g, [])
  | g, op :: rest =>
    let s := applyOp g op
    let r := runOps s.1 rest
    (r.1, (match s.2 with | some x => [x] | none => []) ++ r.2)

/-! ## Concrete fixtures used by witnesses and counterexamples -/

/-- An empty attribute bag. -/
def exAttrs : EntityAttrs := ⟨none, none, [], false, none, none, none⟩

/-- An attribute bag with `is_exception = True`. -/
def exAttrsExc : EntityAttrs := ⟨none, none, [], true, none, none, none⟩

/-- A concrete task entity. -/
def exTask (i : Nat) (nm : String) (a : EntityAttrs) : KnowledgeEntity :=
  ⟨i, 9, EntityType.task, nm, none, ConfidenceLevel.high, 1, a⟩

/-- A concrete `depends_on` edge. -/
def exEdge (i s t : Nat) : GraphEdge :=
  ⟨i, 0, s, t, RelationType.depends_on, none, 1, ConfidenceLevel.unverified, []⟩

/-- One-node graph used by the C1 witness. -/
def exG1 : PGraph := (ProcessGraph.add_entity (ProcessGraph.init 9) (exTask 0 "start" exAttrs)).1

/-- Three-task chain A → B → C where B is flagged `is_exception`
(C3 counterexample). -/
def exG3 : PGraph :=
  let g := (ProcessGraph.add_entity (ProcessGraph.init 9) (exTask 1 "A" exAttrs)).1
  let g := (ProcessGraph.add_entity g (exTask 2 "B" exAttrsExc)).1
  let g := (ProcessGraph.add_entity g (exTask 3 "C" exAttrs)).1
  let g := (ProcessGraph.add_edge g (exEdge 10 1 2)).1
  (ProcessGraph.add_edge g (exEdge 11 2 3)).1

/-- One-entity graph before the C6 snapshot. -/
def exG6a : PGraph :=
  (ProcessGraph.add_entity (ProcessGraph.init 7)
    ⟨0, 7, EntityType.task, "draft", none, ConfidenceLevel.unverified, 0, exAttrs⟩).1

/-- The C6 graph right after snapshotting version 1. -/
def exG6b : PGraph := (ProcessGraph.create_snapshot exG6a "v1").1

/-- The C6 graph after re-adding entity 0 with a new name and score
(a mutation performed after the snapshot). -/
def exG6c : PGraph :=
  (ProcessGraph.add_entity exG6b
    ⟨0, 7, EntityType.task, "final", none, ConfidenceLevel.high, 1, exAttrs⟩).1

/-- Two-node graph used by the C7 counterexample. -/
def exG7 : PGraph :=
  (ProcessGraph.add_entity
    ((ProcessGraph.add_entity (ProcessGraph.init 5) (exTask 0 "S" exAttrs)).1)
    (exTask 1 "T" exAttrs)).1

/-- First parallel edge 0 → 1 (relation `depends_on`). -/
def exE71 : GraphEdge :=
  ⟨100, 0, 0, 1, RelationType.depends_on, none, 1, ConfidenceLevel.unverified, []⟩

/-- Second parallel edge 0 → 1 (relation `triggers`, labelled). -/
def exE72 : GraphEdge :=
  ⟨101, 0, 0, 1, RelationType.triggers, some "L", 1, ConfidenceLevel.unverified, []⟩

/-- The C7 graph after adding both parallel edges. -/
def exG7c : PGraph :=
  (ProcessGraph.add_edge (ProcessGraph.add_edge exG7 exE71).1 exE72).1

/-- A single low-confidence entity (score 3/10 < 0.5), of a type that
triggers no rule other than `LowConfidenceChainRule` (C8
counterexample). -/
def exLowConf : KnowledgeEntity :=
  ⟨5, 9, EntityType.artifact, "ledger", none, ConfidenceLevel.unverified, 0, exAttrs⟩

/-- The C9 witness graph: `exG6a` snapshotted twice. -/
def exG9 : PGraph :=
  (ProcessGraph.create_snapshot (ProcessGraph.create_snapshot exG6a "a").1 "b").1

/-- A session state holding one entity named " Alpha" under the
normalised index key "alpha" (C10 witness). -/
def exSession : SessionState :=
  ⟨[(4, exTask 4 " Alpha" exAttrs)], [("alpha", 4)]⟩

/-- The graph obtained by creating a fresh two-node graph for process `p`
with entities `ea`, `eb` and then adding `e1` followed by `e2`; the two
booleans are the results of the two `add_edge` calls (used by the C7
analysis of parallel edges). -/
def chainTwoEdges (p : Nat) (ea eb : KnowledgeEntity) (e1 e2 : GraphEdge) :
    PGraph × Bool × Bool :=
  let g0 := (ProcessGraph.add_entity
    ((ProcessGraph.add_entity (ProcessGraph.init p) ea).1) eb).1
  let r1 := ProcessGraph.add_edge g0 e1
  let r2 := ProcessGraph.add_edge r1.1 e2
  (r2.1, r1.2, r2.2)

/-! ## Theorems -/

/-- C1: adding an edge whose source or target entity is not a node of the
graph returns `false` and leaves the whole graph state — in particular its
node and edge sets — exactly unchanged. -/
theorem add_edge_missing_endpoint_rejected (g : PGraph) (e : GraphEdge)
    (h : hasNode g e.source_node_id = false ∨ hasNode g e.target_node_id = false) :
    ProcessGraph.add_edge g e = (g, false) := by
  unfold ProcessGraph.add_edge
  rw [if_pos h]

/-- Witness for C1 at a concrete graph and edge: node 5 is absent from
`exG1`, and the add is rejected without any state change. -/
theorem add_edge_missing_endpoint_rejected_witness :
    (hasNode exG1 (exEdge 50 0 5).source_node_id = false ∨
      hasNode exG1 (exEdge 50 0 5).target_node_id = false) ∧
    ProcessGraph.add_edge exG1 (exEdge 50 0 5) = (exG1, false) :=
  ⟨Or.inr (by decide),
   add_edge_missing_endpoint_rejected exG1 (exEdge 50 0 5) (Or.inr (by decide))⟩

/-- C9: whenever both requested versions were snapshotted, `compute_diff`
returns a `GraphDiff` whose added/removed node and edge collections are
all empty, and conveys the four set-difference counts only inside the
one-line summary string. -/
theorem compute_diff_collections_empty (g : PGraph) (a b : Nat)
    (os ns : Snapshot)
    (ha : alGet g.snapshots a = some os)
    (hb : alGet g.snapshots b = some ns) :
    (ProcessGraph.compute_diff g a b).nodes_added = [] ∧
    (ProcessGraph.compute_diff g a b).nodes_removed = [] ∧
    (ProcessGraph.compute_diff g a b).edges_added = [] ∧
    (ProcessGraph.compute_diff g a b).edges_removed = [] ∧
    (ProcessGraph.compute_diff g a b).summary =
      "+" ++ toString ((snapNodeIds ns \ snapNodeIds os).card) ++ " nodes, -" ++
      toString ((snapNodeIds os \ snapNodeIds ns).card) ++ " nodes, +" ++
      toString ((snapEdgeKeys ns \ snapEdgeKeys os).card) ++ " edges, -" ++
      toString ((snapEdgeKeys os \ snapEdgeKeys ns).card) ++ " edges" := by
  unfold ProcessGraph.compute_diff
  rw [ha, hb]
  exact ⟨rfl, rfl, rfl, rfl, rfl⟩

/-- Witness for C9 at a concrete graph with two stored snapshots. -/
theorem compute_diff_collections_empty_witness :
    (alGet exG9.snapshots 1 = some ⟨[(0, 0)], [], exG6a.entities⟩ ∧
      alGet exG9.snapshots 2 = some ⟨[(0, 0)], [], exG6a.entities⟩) ∧
    (ProcessGraph.compute_diff exG9 1 2).nodes_added = [] ∧
    (ProcessGraph.compute_diff exG9 1 2).nodes_removed = [] ∧
    (ProcessGraph.compute_diff exG9 1 2).edges_added = [] ∧
    (ProcessGraph.compute_diff exG9 1 2).edges_removed = [] ∧
    (ProcessGraph.compute_diff exG9 1 2).summary =
      "+" ++ toString ((snapNodeIds ⟨[(0, 0)], [], exG6a.entities⟩ \
        snapNodeIds ⟨[(0, 0)], [], exG6a.entities⟩).card) ++ " nodes, -" ++
      toString ((snapNodeIds ⟨[(0, 0)], [], exG6a.entities⟩ \
        snapNodeIds ⟨[(0, 0)], [], exG6a.entities⟩).card) ++ " nodes, +" ++
      toString ((snapEdgeKeys ⟨[(0, 0)], [], exG6a.entities⟩ \
        snapEdgeKeys ⟨[(0, 0)], [], exG6a.entities⟩).card) ++ " edges, -" ++
      toString ((snapEdgeKeys ⟨[(0, 0)], [], exG6a.entities⟩ \
        snapEdgeKeys ⟨[(0, 0)], [], exG6a.entities⟩).card) ++ " edges" :=
  ⟨⟨rfl, rfl⟩,
   compute_diff_collections_empty exG9 1 2 _ _ rfl rfl⟩

/-- C10: in the session entity merge, an incoming entity whose
case-insensitive trimmed name hits an existing entity is discarded when
its confidence score is not strictly greater — the state is completely
unchanged and the stored entity is returned — while a strictly greater
score overwrites the stored entity in place, reusing the existing
identifier. -/
theorem session_add_entity_merge (st : SessionState) (e ex : KnowledgeEntity)
    (i : Nat)
    (hidx : alGet st.entity_index (pyStrip (pyLower e.name)) = some i)
    (hent : alGet st.entities i = some ex) :
    (e.confidence_score ≤ ex.confidence_score →
      SessionState.add_entity st e = (st, ex)) ∧
    (ex.confidence_score < e.confidence_score →
      SessionState.add_entity st e =
        ({ st with entities := alSet st.entities i { e with id := i } },
         { e with id := i })) := by
  simp only [SessionState.add_entity, hidx, hent]
  constructor
  · intro hle
    rw [if_neg (not_lt.mpr hle)]
  · intro hlt
    rw [if_pos hlt]

/-- Witness for C10: merging an entity named "ALPHA " (same normalised
key, equal confidence score) into `exSession` changes nothing and returns
the stored entity. -/
theorem session_add_entity_merge_witness :
    (alGet exSession.entity_index
        (pyStrip (pyLower (exTask 8 "ALPHA " exAttrs).name)) = some 4 ∧
      alGet exSession.entities 4 = some (exTask 4 " Alpha" exAttrs) ∧
      (exTask 8 "ALPHA " exAttrs).confidence_score ≤
        (exTask 4 " Alpha" exAttrs).confidence_score) ∧
    SessionState.add_entity exSession (exTask 8 "ALPHA " exAttrs) =
      (exSession, exTask 4 " Alpha" exAttrs) :=
  ⟨⟨by decide, by decide, by decide⟩,
   (session_add_entity_merge exSession (exTask 8 "ALPHA " exAttrs)
      (exTask 4 " Alpha" exAttrs) 4 (by decide) (by decide)).1 (by decide)⟩

/-- C6: the snapshot store is not immutable.  `create_snapshot` stores
references to the live NetworkX attribute dictionaries, so re-adding
entity 0 (renamed from "draft" to "final") after snapshotting version 1
changes the per-node payload stored under version 1: the stored name reads
"draft" right after the snapshot and "final" after the later mutation.
This contradicts the claim (and the source's own comment that the
snapshot is serialized). -/
theorem snapshot_node_payload_mutated :
    ProcessGraph.snapshotNodeName exG6b 1 0 = some "draft" ∧
    ProcessGraph.snapshotNodeName exG6c 1 0 = some "final" :=
  ⟨rfl, rfl⟩

/-- C7 counterexample: after two successful `add_edge` calls sharing the
same ordered endpoints but with different relation kinds and labels,
`get_all_edges` returns a single edge whose payload is the second call's —
the graph is a `DiGraph`, not a multigraph, and the first edge was
overwritten. -/
theorem parallel_edges_not_retained :
    (ProcessGraph.add_edge exG7 exE71).2 = true ∧
    (ProcessGraph.add_edge (ProcessGraph.add_edge exG7 exE71).1 exE72).2 = true ∧
    ProcessGraph.get_all_edges exG7c =
      [⟨101, 0, 0, 1, RelationType.triggers, some "L", 1,
        ConfidenceLevel.unverified, []⟩] :=
  ⟨rfl, rfl, rfl⟩

/-- C7 (amended): on a fresh graph with two distinct entities, a second
successful `add_edge` between the same ordered endpoints updates the
stored edge attributes in place; `get_all_edges` then returns exactly one
edge for the pair, carrying the second edge's id, relation kind, label and
conditions. -/
theorem add_edge_same_pair_overwrites (p : Nat) (ea eb : KnowledgeEntity)
    (e1 e2 : GraphEdge) (hne : ea.id ≠ eb.id)
    (h1s : e1.source_node_id = ea.id) (h1t : e1.target_node_id = eb.id)
    (h2s : e2.source_node_id = ea.id) (h2t : e2.target_node_id = eb.id) :
    (chainTwoEdges p ea eb e1 e2).2.1 = true ∧
    (chainTwoEdges p ea eb e1 e2).2.2 = true ∧
    ProcessGraph.get_all_edges (chainTwoEdges p ea eb e1 e2).1 =
      [{ id := e2.id, graph_version := 0, source_node_id := ea.id,
         target_node_id := eb.id, relation_type := e2.relation_type,
         label := e2.label, weight := 1,
         confidence := ConfidenceLevel.unverified,
         conditions := e2.conditions }] := by
  simp [chainTwoEdges, ProcessGraph.add_entity, ProcessGraph.add_edge,
    ProcessGraph.init, ProcessGraph.hasNode, ProcessGraph.get_all_edges,
    ProcessGraph.edgeTriples, alContains, alGet, alSet,
    h1s, h1t, h2s, h2t, hne, Ne.symm hne]

/-- Witness for C7's amended theorem at concrete entities and edges. -/
theorem add_edge_same_pair_overwrites_witness :
    ((exTask 0 "S" exAttrs).id ≠ (exTask 1 "T" exAttrs).id ∧
      exE71.source_node_id = (exTask 0 "S" exAttrs).id ∧
      exE71.target_node_id = (exTask 1 "T" exAttrs).id ∧
      exE72.source_node_id = (exTask 0 "S" exAttrs).id ∧
      exE72.target_node_id = (exTask 1 "T" exAttrs).id) ∧
    (chainTwoEdges 5 (exTask 0 "S" exAttrs) (exTask 1 "T" exAttrs) exE71 exE72).2.1 = true ∧
    (chainTwoEdges 5 (exTask 0 "S" exAttrs) (exTask 1 "T" exAttrs) exE71 exE72).2.2 = true ∧
    ProcessGraph.get_all_edges
      (chainTwoEdges 5 (exTask 0 "S" exAttrs) (exTask 1 "T" exAttrs) exE71 exE72).1 =
      [{ id := exE72.id, graph_version := 0,
         source_node_id := (exTask 0 "S" exAttrs).id,
         target_node_id := (exTask 1 "T" exAttrs).id,
         relation_type := exE72.relation_type, label := exE72.label,
         weight := 1, confidence := ConfidenceLevel.unverified,
         conditions := exE72.conditions }] :=
  ⟨⟨by decide, rfl, rfl, rfl, rfl⟩,
   add_edge_same_pair_overwrites 5 (exTask 0 "S" exAttrs) (exTask 1 "T" exAttrs)
     exE71 exE72 (by decide) rfl rfl rfl rfl⟩

/-- C3 counterexample: generating the SOP of the chain A → B → C with
exceptions excluded (B is flagged `is_exception`) yields emitted steps
numbered 1 and 3 — the skipped entity consumed step number 2, so the
emitted numbers are not the consecutive 1..K claimed. -/
theorem sop_excluded_entity_consumes_number :
    ((generate exG3 false true "standard").steps.map
      (fun s => s.step_number)) = [1, 3] :=
  rfl

/-- Auxiliary for C3 (amended): every step emitted by the generation loop
started at counter `n` has a step number above `n`, and the emitted step
numbers are strictly increasing. -/
theorem genLoop_numbers_strict_mono (g : PGraph) (rm : AList Nat String)
    (ie isys : Bool) (dl : String) :
    ∀ (ordered : List (KnowledgeEntity × Option String)) (n : Nat)
      (roles sys arts : List String),
      (∀ s ∈ (genLoop g rm ie isys dl ordered n roles sys arts).1,
        n < s.step_number) ∧
      ((genLoop g rm ie isys dl ordered n roles sys arts).1.map
        (fun s => s.step_number)).Pairwise (· < ·) := by
  intro ordered
  induction ordered with
  | nil =>
    intro n roles sys arts
    simp [genLoop]
  | cons hd tl ih =>
    intro n roles sys arts
    obtain ⟨entity, branch⟩ := hd
    by_cases h1 : entity.attributes.is_exception = true ∧ ie = false
    · simp only [genLoop, if_pos h1]
      exact ⟨fun s hs => Nat.lt_of_succ_lt ((ih (n + 1) _ _ _).1 s hs),
        (ih (n + 1) _ _ _).2⟩
    · by_cases h2 : entity.entity_type = EntityType.system ∧ isys = false
      · simp only [genLoop, if_neg h1, if_pos h2]
        exact ⟨fun s hs => Nat.lt_of_succ_lt ((ih (n + 1) _ _ _).1 s hs),
          (ih (n + 1) _ _ _).2⟩
      · simp only [genLoop, if_neg h1, if_neg h2]
        constructor
        · intro s hs
          simp only [List.mem_cons] at hs
          cases hs with
          | inl heq => simp [heq]
          | inr hmem =>
            exact Nat.lt_of_succ_lt ((ih (n + 1) _ _ _).1 s hmem)
        · simp only [List.map_cons, List.pairwise_cons]
          constructor
          · intro m hm
            simp only [List.mem_map] at hm
            obtain ⟨s, hs, hsn⟩ := hm
            rw [← hsn]
            exact (ih (n + 1) _ _ _).1 s hs
          · exact (ih (n + 1) _ _ _).2

/-- C3 (amended): step numbers are assigned by position in the ordered
traversal, before the exclusion checks, so an excluded entity consumes its
number; the emitted steps carry strictly increasing (but possibly
non-consecutive) step numbers. -/
theorem sop_step_numbers_strictly_increasing (g : PGraph) (ie isys : Bool)
    (dl : String) :
    ((generate g ie isys dl).steps.map (fun s => s.step_number)).Pairwise
      (· < ·) := by
  simp only [generate]
  exact (genLoop_numbers_strict_mono g (build_role_map g) ie isys dl
    (get_ordered_steps g) 0 [] [] []).2

/-- Auxiliary for C5: when the entity table is empty, the ordering BFS
emits nothing — every popped id fails the entity lookup, and nothing is
ever enqueued. -/
theorem bfsOrder_no_entities (g : PGraph) (h : g.entities = []) :
    ∀ (fuel : Nat) (queue : List (Nat × Option String)) (visited : List Nat)
      (acc : List (KnowledgeEntity × Option String)),
      bfsOrder g fuel queue visited acc = acc := by
  intro fuel
  induction fuel with
  | zero =>
    intro queue visited acc
    rfl
  | succ m ih =>
    intro queue visited acc
    cases queue with
    | nil => rfl
    | cons hd tl =>
      obtain ⟨cid, br⟩ := hd
      have hget : alGet g.entities cid = none := by rw [h]; rfl
      simp only [bfsOrder]
      split
      · exact ih tl visited acc
      · rw [hget]
        exact ih tl visited acc

/-- C5: SOP generation over a graph with zero entities succeeds with an
empty step list, coverage score 0 and confidence score 0.5. -/
theorem generate_empty_graph (g : PGraph) (ie isys : Bool) (dl : String)
    (h : g.entities = []) :
    (generate g ie isys dl).steps = [] ∧
    (generate g ie isys dl).coverage_score = 0 ∧
    (generate g ie isys dl).confidence_score = 1/2 := by
  have hord : get_ordered_steps g = [] := by
    simp only [get_ordered_steps]
    exact bfsOrder_no_entities g h _ _ _ _
  simp only [generate, hord, genLoop, h]
  refine ⟨by trivial, by simp, ?_⟩
  simp only [List.map_nil, List.length_nil, if_pos rfl]
  rw [Rat.mkRat_eq_div]
  norm_num

/-- Witness for C5: the freshly initialised graph of process 3 has no
entities, and its generated SOP is the degenerate one. -/
theorem generate_empty_graph_witness :
    (ProcessGraph.init 3).entities = [] ∧
    (generate (ProcessGraph.init 3) true true "standard").steps = [] ∧
    (generate (ProcessGraph.init 3) true true "standard").coverage_score = 0 ∧
    (generate (ProcessGraph.init 3) true true "standard").confidence_score = 1/2 :=
  ⟨rfl,
   (generate_empty_graph (ProcessGraph.init 3) true true "standard" rfl).1,
   (generate_empty_graph (ProcessGraph.init 3) true true "standard" rfl).2.1,
   (generate_empty_graph (ProcessGraph.init 3) true true "standard" rfl).2.2⟩

/-- `add_entity` never touches the version counter. -/
theorem add_entity_current_version (g : PGraph) (e : KnowledgeEntity) :
    (ProcessGraph.add_entity g e).1.current_version = g.current_version := by
  simp only [ProcessGraph.add_entity]
  cases alGet g.nodes e.id <;> rfl

/-- `add_edge` never touches the version counter. -/
theorem add_edge_current_version (g : PGraph) (e : GraphEdge) :
    (ProcessGraph.add_edge g e).1.current_version = g.current_version := by
  simp only [ProcessGraph.add_edge]
  split
  · rfl
  · cases h : alGet g.adj e.source_node_id with
    | none => simp [h]
    | some succ =>
      cases h2 : alGet succ e.target_node_id <;> simp [h, h2]

/-- `remove_entity` never touches the version counter. -/
theorem remove_entity_current_version (g : PGraph) (i : Nat) :
    (ProcessGraph.remove_entity g i).1.current_version = g.current_version := by
  simp only [ProcessGraph.remove_entity]
  split <;> rfl

/-- Auxiliary for C2: starting from any graph, the snapshot records
collected along a trace are numbered consecutively from the successor of
the current version, and each records the graph's node/edge counts at its
call. -/
theorem runOps_snapshot_trace : ∀ (ops : List Op) (g : PGraph),
    ((runOps g ops).2.map (fun x => x.1.version_number) =
      List.range' (g.current_version + 1) (runOps g ops).2.length) ∧
    ∀ x ∈ (runOps g ops).2,
      x.1.node_count = x.2.1 ∧ x.1.edge_count = x.2.2 := by
  intro ops
  induction ops with
  | nil =>
    intro g
    simp [runOps]
  | cons op rest ih =>
    intro g
    cases op with
    | addEntity e =>
      have hcv := add_entity_current_version g e
      simpa [runOps, applyOp, hcv] using ih ((ProcessGraph.add_entity g e).1)
    | addEdge e =>
      have hcv := add_edge_current_version g e
      simpa [runOps, applyOp, hcv] using ih ((ProcessGraph.add_edge g e).1)
    | removeEntity i =>
      have hcv := remove_entity_current_version g i
      simpa [runOps, applyOp, hcv] using ih ((ProcessGraph.remove_entity g i).1)
    | snapshot s =>
      have htail := ih ((ProcessGraph.create_snapshot g s).1)
      have hcv : (ProcessGraph.create_snapshot g s).1.current_version =
          g.current_version + 1 := rfl
      rw [hcv] at htail
      constructor
      · simp only [runOps, applyOp, List.map_cons, List.length_cons,
          List.singleton_append, List.range'_succ]
        exact List.cons_eq_cons.mpr ⟨rfl, htail.1⟩
      · intro x hx
        simp only [runOps, applyOp, List.singleton_append, List.mem_cons] at hx
        cases hx with
        | inl heq => rw [heq]; exact ⟨rfl, rfl⟩
        | inr hmem => exact htail.2 x hmem

/-- C2: running any sequence of graph operations from a fresh graph, the
version records returned by the successive `create_snapshot` calls are
numbered exactly 1, 2, ..., N in call order (no gaps, no repeats), and
each record's node and edge counts equal the graph's actual counts at the
moment of that call. -/
theorem create_snapshot_monotonic (pid : Nat) (ops : List Op) :
    ((runOps (ProcessGraph.init pid) ops).2.map (fun x => x.1.version_number) =
      List.range' 1 (runOps (ProcessGraph.init pid) ops).2.length) ∧
    ∀ x ∈ (runOps (ProcessGraph.init pid) ops).2,
      x.1.node_count = x.2.1 ∧ x.1.edge_count = x.2.2 := by
  simpa using runOps_snapshot_trace ops (ProcessGraph.init pid)

/-- C4: on a graph whose only nodes are three distinct entities a, b, c
with edges a → b, b → c, c → a (and no others), the circular-dependency
rule reports at least one finding of severity CRITICAL whose
affected-node list contains exactly the set {a, b, c}. -/
theorem circular_dependency_three_cycle (a b c : Nat)
    (ea eb ec : KnowledgeEntity) (ns : List GraphNode)
    (e1 e2 e3 : GraphEdge)
    (hab : a ≠ b) (hac : a ≠ c) (hbc : b ≠ c)
    (h1s : e1.source_node_id = a) (h1t : e1.target_node_id = b)
    (h2s : e2.source_node_id = b) (h2t : e2.target_node_id = c)
    (h3s : e3.source_node_id = c) (h3t : e3.target_node_id = a) :
    ∃ f ∈ circularDetect [(a, ea), (b, eb), (c, ec)] ns [e1, e2, e3],
      f.severity = RiskSeverity.critical ∧
      ∀ x, x ∈ f.affected_node_ids ↔ (x = a ∨ x = b ∨ x = c) := by
  have hba := Ne.symm hab
  have hca := Ne.symm hac
  have hcb := Ne.symm hbc
  have hadj : build_adjacency ns [e1, e2, e3] = [(a, [b]), (b, [c]), (c, [a])] := by
    simp [build_adjacency, alPush, h1s, h1t, h2s, h2t, h3s, h3t, hab, hac, hbc]
  have hcyc : find_cycles [(a, [b]), (b, [c]), (c, [a])] = [[a, b, c]] := by
    simp [find_cycles, find_cycles.loop, cycDfs, cycLoop, alGet, pyIndex,
      hab, hac, hbc, hba, hca, hcb, List.erase_cons]
  have hdet : circularDetect [(a, ea), (b, eb), (c, ec)] ns [e1, e2, e3] =
      [{ process_id := ea.process_id,
         category := RiskCategory.circular_dependency,
         severity := RiskSeverity.critical,
         title := "Circular Dependency Detected",
         description := "Cycle found: " ++
           strJoin " → " [ea.name, eb.name, ec.name] ++ " → " ++
           [ea.name, eb.name, ec.name].headD "",
         explanation := "Circular dependencies create deadlock: each task waits for another, so nothing can complete. This will cause the process to hang indefinitely.",
         affected_node_ids := [a, b, c], affected_edge_ids := [],
         recommendation := "Break the cycle by removing one dependency or restructuring the process to eliminate the loop.",
         effort_estimate := some "medium" }] := by
    simp [circularDetect, hadj, hcyc, alGet, firstProcessId, strJoin,
      hab, hac, hbc, hba, hca, hcb]
  rw [hdet]
  refine ⟨_, List.mem_singleton.mpr rfl, rfl, ?_⟩
  intro x
  simp

/-- Witness for C4 at the concrete 3-cycle 0 → 1 → 2 → 0. -/
theorem circular_dependency_three_cycle_witness :
    ((0 : Nat) ≠ 1 ∧ (0 : Nat) ≠ 2 ∧ (1 : Nat) ≠ 2 ∧
      (exEdge 20 0 1).source_node_id = 0 ∧ (exEdge 20 0 1).target_node_id = 1 ∧
      (exEdge 21 1 2).source_node_id = 1 ∧ (exEdge 21 1 2).target_node_id = 2 ∧
      (exEdge 22 2 0).source_node_id = 2 ∧ (exEdge 22 2 0).target_node_id = 0) ∧
    ∃ f ∈ circularDetect
        [(0, exTask 0 "A" exAttrs), (1, exTask 1 "B" exAttrs),
         (2, exTask 2 "C" exAttrs)] []
        [exEdge 20 0 1, exEdge 21 1 2, exEdge 22 2 0],
      f.severity = RiskSeverity.critical ∧
      ∀ x, x ∈ f.affected_node_ids ↔ (x = 0 ∨ x = 1 ∨ x = 2) :=
  ⟨⟨by decide, by decide, by decide, rfl, rfl, rfl, rfl, rfl, rfl⟩,
   circular_dependency_three_cycle 0 1 2 (exTask 0 "A" exAttrs)
     (exTask 1 "B" exAttrs) (exTask 2 "C" exAttrs) []
     (exEdge 20 0 1) (exEdge 21 1 2) (exEdge 22 2 0)
     (by decide) (by decide) (by decide) rfl rfl rfl rfl rfl rfl⟩

/-- Every finding a rule emits carries that rule's category attribute
(each rule constructs its findings with `category := self.category`). -/
theorem detect_category_eq : ∀ r ∈ riskRules,
    ∀ (e : AList Nat KnowledgeEntity) (n : List GraphNode)
      (ed : List GraphEdge) (f : RiskFinding),
      f ∈ r.detect e n ed → f.category = r.category := by
  intro r hr
  simp only [riskRules, List.mem_cons, List.not_mem_nil, or_false] at hr
  rcases hr with rfl | rfl | rfl | rfl | rfl | rfl | rfl
  · intro e n ed f hf
    simp only [spofDetect, List.mem_filterMap] at hf
    obtain ⟨p, -, hp⟩ := hf
    repeat' split at hp
    all_goals first
      | (obtain rfl := Option.some.inj hp; rfl)
      | exact absurd hp (by simp)
  · intro e n ed f hf
    simp only [undocDetect, List.mem_filterMap] at hf
    obtain ⟨p, -, hp⟩ := hf
    repeat' split at hp
    all_goals first
      | (obtain rfl := Option.some.inj hp; rfl)
      | exact absurd hp (by simp)
  · intro e n ed f hf
    simp only [orphanDetect, List.mem_filterMap] at hf
    obtain ⟨p, -, hp⟩ := hf
    repeat' split at hp
    all_goals first
      | (obtain rfl := Option.some.inj hp; rfl)
      | exact absurd hp (by simp)
  · intro e n ed f hf
    dsimp only [brittleDetect] at hf
    repeat' split at hf
    all_goals first
      | (obtain rfl := List.mem_singleton.mp hf; rfl)
      | exact absurd hf (by simp)
  · intro e n ed f hf
    simp only [circularDetect, List.mem_filterMap] at hf
    obtain ⟨p, -, hp⟩ := hf
    repeat' split at hp
    all_goals first
      | (obtain rfl := Option.some.inj hp; rfl)
      | exact absurd hp (by simp)
  · intro e n ed f hf
    simp only [bottleneckDetect, List.mem_filterMap] at hf
    obtain ⟨p, -, hp⟩ := hf
    repeat' split at hp
    all_goals first
      | (obtain rfl := Option.some.inj hp; rfl)
      | exact absurd hp (by simp)
  · intro e n ed f hf
    dsimp only [lowConfDetect] at hf
    repeat' split at hf
    all_goals first
      | (obtain rfl := List.mem_singleton.mp hf; rfl)
      | exact absurd hf (by simp)

/-- C8 (amended): every finding returned by `analyze` meets the minimum
severity threshold (order low < medium < high < critical) and, when a
NON-EMPTY category allow-list is given, has its category in that list;
the returned list is sorted in descending severity order.  (An empty
allow-list is falsy in Python and disables category filtering, see the
counterexample.) -/
theorem analyze_filters_and_sorts (entities : AList Nat KnowledgeEntity)
    (nodes : List GraphNode) (edges : List GraphEdge)
    (cs : Option (List RiskCategory)) (ms : RiskSeverity) :
    (∀ f ∈ analyze entities nodes edges cs ms,
      severityIdx ms ≤ severityIdx f.severity ∧
      ∀ l, cs = some l → l ≠ [] → f.category ∈ l) ∧
    (analyze entities nodes edges cs ms).Pairwise
      (fun f1 f2 => severityIdx f2.severity ≤ severityIdx f1.severity) := by
  constructor
  · intro f hf
    simp only [analyze, List.mem_mergeSort] at hf
    rw [List.mem_flatMap] at hf
    obtain ⟨r, hr, hfr⟩ := hf
    rw [List.mem_filter] at hr
    obtain ⟨hrmem, hrkeep⟩ := hr
    rw [List.mem_filter] at hfr
    obtain ⟨hfdet, hfsev⟩ := hfr
    constructor
    · simpa using hfsev
    · intro l hl hlne
      subst hl
      have hcat := detect_category_eq r hrmem entities nodes edges f hfdet
      rw [hcat]
      simp only [Bool.not_eq_eq_eq_not, Bool.not_true, pyCatSkip] at hrkeep
      rw [if_neg hlne] at hrkeep
      simpa using hrkeep
  · simp only [analyze]
    refine List.Pairwise.imp ?_ (List.sorted_mergeSort ?_ ?_ _)
    · intro f1 f2 h
      simpa using h
    · intro x y z hxy hyz
      simp only [decide_eq_true_eq] at hxy hyz ⊢
      exact le_trans hyz hxy
    · intro x y
      simpa using Nat.le_total (severityIdx y.severity) (severityIdx x.severity)

/-- C8 counterexample: with an explicitly given, empty category allow-list
(`categories = []`, falsy in Python), `analyze` performs no category
filtering at all and returns a finding whose category is not in the given
list — refuting the claim for empty allow-lists. -/
theorem analyze_empty_allowlist_not_filtered :
    (analyze [(5, exLowConf)] [] [] (some []) RiskSeverity.low).length = 1 ∧
    ∀ f ∈ analyze [(5, exLowConf)] [] [] (some []) RiskSeverity.low,
      f.category ∉ ([] : List RiskCategory) := by
  constructor
  · simp only [analyze, List.length_mergeSort]
    rfl
  · intro f _
    simp

/-- Witness for C8's amended theorem: at the concrete one-entity input
with a non-empty allow-list, the single returned finding meets the
threshold and lies in the list, and the output is sorted. -/
theorem analyze_filters_and_sorts_witness :
    (∀ f ∈ analyze [(5, exLowConf)] [] []
        (some [RiskCategory.brittle_chain]) RiskSeverity.low,
      severityIdx RiskSeverity.low ≤ severityIdx f.severity ∧
      ∀ l, some [RiskCategory.brittle_chain] = some l → l ≠ [] →
        f.category ∈ l) ∧
    (analyze [(5, exLowConf)] [] []
        (some [RiskCategory.brittle_chain]) RiskSeverity.low).Pairwise
      (fun f1 f2 => severityIdx f2.severity ≤ severityIdx f1.severity) :=
  analyze_filters_and_sorts [(5, exLowConf)] [] []
    (some [RiskCategory.brittle_chain]) RiskSeverity.low

end KnowFlow
